import Mathlib

/-!
Shallow embedding of `pygimli/core/matrix.py`: the family of implicit linear
operators (scaling, composite, diagonal, inverse-square-root and geostatistic
constraint operators) together with the block-matrix `addMatrix` monkey patch.

Vectors are modelled as `List ℚ` (a `pg.RVector` / 1-d numpy array of real
numbers), dense matrices as row-major `List (List ℚ)`.  Python exceptions are
modelled by the error type `PyErr`: elementwise operations on vectors of
different lengths raise a shape/length error, a failed `assert` raises
`assertionError`, and reading a missing attribute (such as `self.perm` in
`MultRightMatrix.mult`) raises `attributeError`.  Fallible operations return
`Except PyErr (List ℚ)`.
-/

namespace GimliSpec

/-- Kinds of Python exception the embedded code can raise: dimension/length
mismatches (`raise Exception(...)` on shape checks and numpy/pg elementwise
length errors), failed `assert` statements, and missing-attribute reads. -/
inductive PyErr where
  | shapeMismatch
  | assertionError
  | attributeError
  deriving DecidableEq

instance {ε α : Type} [DecidableEq ε] [DecidableEq α] : DecidableEq (Except ε α) :=
  fun a b =>
    match a, b with
    | .ok x, .ok y => if h : x = y then .isTrue (by rw [h]) else .isFalse (by simp [h])
    | .ok _, .error _ => .isFalse (by simp)
    | .error _, .ok _ => .isFalse (by simp)
    | .error e, .error f => if h : e = f then .isTrue (by rw [h]) else .isFalse (by simp [h])

/-- Elementwise product `x * y` of two sized vectors; raises a length error
when the lengths differ (pg vector semantics, no broadcasting). -/
def vecMul (a b : List ℚ) : Except PyErr (List ℚ) :=
  if a.length = b.length then .ok (List.zipWith (· * ·) a b) else .error .shapeMismatch

/-- Elementwise sum `x + y` of two sized vectors; length error on mismatch. -/
def vecAdd (a b : List ℚ) : Except PyErr (List ℚ) :=
  if a.length = b.length then .ok (List.zipWith (· + ·) a b) else .error .shapeMismatch

/-- Elementwise difference `x - y` of two sized vectors; length error on mismatch. -/
def vecSub (a b : List ℚ) : Except PyErr (List ℚ) :=
  if a.length = b.length then .ok (List.zipWith (· - ·) a b) else .error .shapeMismatch

/-- Dot product of two vectors (summands beyond the shorter length drop out;
only ever used at equal lengths). -/
def dotQ (a b : List ℚ) : ℚ := (List.zipWith (· * ·) a b).sum

/-- Shape `(rows, cols)` of a row-major dense matrix, as numpy's `A.shape`
for a (rectangular) 2-d array. -/
def matShape (M : List (List ℚ)) : ℕ × ℕ := (M.length, (M.headD []).length)

/-- A rectangular `r × c` row-major matrix. -/
def IsRect (M : List (List ℚ)) (r c : ℕ) : Prop :=
  M.length = r ∧ ∀ row ∈ M, row.length = c

instance (M : List (List ℚ)) (r c : ℕ) : Decidable (IsRect M r c) := by
  unfold IsRect; infer_instance

/-- Column `j` of a dense matrix (entries beyond a row's length read as `0`;
never reached on rectangular input). -/
def colOf (M : List (List ℚ)) (j : ℕ) : List ℚ := M.map (fun row => row.getD j 0)

/-- Vector-matrix product `np.dot(x, M)` (`x` 1-d): requires `len(x)` to equal
the number of rows of `M`, otherwise numpy raises a shape error. -/
def npVecMat (x : List ℚ) (M : List (List ℚ)) : Except PyErr (List ℚ) :=
  if x.length = M.length then
    .ok ((List.range (matShape M).2).map (fun j => dotQ x (colOf M j)))
  else .error .shapeMismatch

/-- Matrix-vector product `M.dot(x)`: requires `len(x)` to equal the number of
columns of `M`, otherwise numpy raises a shape error. -/
def npMatVec (M : List (List ℚ)) (x : List ℚ) : Except PyErr (List ℚ) :=
  if (matShape M).2 = x.length then
    .ok (M.map (fun row => dotQ row x))
  else .error .shapeMismatch

/-- An operator exposing the four-operation contract `rows`, `cols`, `mult`,
`transMult` (the duck-typed interface every matrix class implements; terminal
matrices come from the storage engine). -/
structure LinOp where
  rows : ℕ
  cols : ℕ
  mult : List ℚ → Except PyErr (List ℚ)
  transMult : List ℚ → Except PyErr (List ℚ)

/-- Terminal dense matrix operator (storage-engine `pg.Matrix` on row-major
data): `mult` is the matrix-vector product, `transMult` the transposed one. -/
def denseLinOp (M : List (List ℚ)) : LinOp where
  rows := (matShape M).1
  cols := (matShape M).2
  mult := fun x => npMatVec M x
  transMult := fun x => npVecMat x M

/-- State of `MultLeftMatrix` after `__init__`: the wrapped operator `_A` and
the left scaling vector `_l`. -/
structure MultLeftMatrix where
  A : LinOp
  l : List ℚ

/-- Constructor `MultLeftMatrix.__init__(A, left)`: raises when
`A.rows() != len(left)` (source line 58), otherwise stores `A` and `left`. -/
def MultLeftMatrix.init (A : LinOp) (left : List ℚ) : Except PyErr MultLeftMatrix :=
  if A.rows ≠ left.length then .error .shapeMismatch
  else .ok ⟨A, left⟩

/-- Inherited `MultMatrix.rows`: delegates to the wrapped operator. -/
def MultLeftMatrix.rows (M : MultLeftMatrix) : ℕ := M.A.rows

/-- Inherited `MultMatrix.cols`: delegates to the wrapped operator. -/
def MultLeftMatrix.cols (M : MultLeftMatrix) : ℕ := M.A.cols

/-- Method body `return self.A.mult(x) * self.l`. -/
def MultLeftMatrix.mult (M : MultLeftMatrix) (x : List ℚ) : Except PyErr (List ℚ) := do
  let y ← M.A.mult x
  vecMul y M.l

/-- Method body `return self.A.transMult(x * self.l)`. -/
def MultLeftMatrix.transMult (M : MultLeftMatrix) (x : List ℚ) : Except PyErr (List ℚ) := do
  let y ← vecMul x M.l
  M.A.transMult y

/-- State of `MultRightMatrix` after `__init__`: the wrapped operator `_A` and
the right scaling vector `_r`.  Note there is no `perm` field: no constructor
or method of the class ever assigns `self.perm`. -/
structure MultRightMatrix where
  A : LinOp
  r : List ℚ

/-- Constructor `MultRightMatrix.__init__(A, r=None)`: when `r` is `None` the
right vector defaults to `pgcore.RVector(self.cols(), 1.0)`, the all-ones
vector of length `A.cols()` (source lines 90-93).  No length check happens. -/
def MultRightMatrix.init (A : LinOp) (r : Option (List ℚ)) : MultRightMatrix :=
  ⟨A, r.getD (List.replicate A.cols 1)⟩

/-- Inherited `MultMatrix.rows`. -/
def MultRightMatrix.rows (M : MultRightMatrix) : ℕ := M.A.rows

/-- Inherited `MultMatrix.cols`. -/
def MultRightMatrix.cols (M : MultRightMatrix) : ℕ := M.A.cols

/-- Method body of `MultRightMatrix.mult` (source lines 103-114).  Both `x`
and `self.r` are sized vectors here, so the `hasattr(..., '__len__')` guard
holds; when `len(x) != len(self.r)` the code evaluates
`self.A.mult(x[self.perm] * self.r)` and the read of the never-assigned
attribute `self.perm` raises an `AttributeError`.  Otherwise it returns
`self.A.mult(x * self.r)`. -/
def MultRightMatrix.mult (M : MultRightMatrix) (x : List ℚ) : Except PyErr (List ℚ) :=
  if x.length ≠ M.r.length then .error .attributeError
  else do
    let y ← vecMul x M.r
    M.A.mult y

/-- Method body `return self.A.transMult(x) * self.r`. -/
def MultRightMatrix.transMult (M : MultRightMatrix) (x : List ℚ) : Except PyErr (List ℚ) := do
  let y ← M.A.transMult x
  vecMul y M.r

/-- State of `MultLeftRightMatrix` after `__init__`. -/
structure MultLeftRightMatrix where
  A : LinOp
  l : List ℚ
  r : List ℚ

/-- Constructor `MultLeftRightMatrix.__init__(A, left, right)`: raises when
`A.cols() != len(right)` (line 130) and then when `A.rows() != len(left)`
(line 132), otherwise stores the operator and both vectors. -/
def MultLeftRightMatrix.init (A : LinOp) (left right : List ℚ) :
    Except PyErr MultLeftRightMatrix :=
  if A.cols ≠ right.length then .error .shapeMismatch
  else if A.rows ≠ left.length then .error .shapeMismatch
  else .ok ⟨A, left, right⟩

/-- Inherited `MultMatrix.rows`. -/
def MultLeftRightMatrix.rows (M : MultLeftRightMatrix) : ℕ := M.A.rows

/-- Inherited `MultMatrix.cols`. -/
def MultLeftRightMatrix.cols (M : MultLeftRightMatrix) : ℕ := M.A.cols

/-- Method body `return self.A.mult(x * self._r) * self._l`. -/
def MultLeftRightMatrix.mult (M : MultLeftRightMatrix) (x : List ℚ) :
    Except PyErr (List ℚ) := do
  let y ← vecMul x M.r
  let z ← M.A.mult y
  vecMul z M.l

/-- Method body `return self.A.transMult(x * self._l) * self._r`. -/
def MultLeftRightMatrix.transMult (M : MultLeftRightMatrix) (x : List ℚ) :
    Except PyErr (List ℚ) := do
  let y ← vecMul x M.l
  let z ← M.A.transMult y
  vecMul z M.r

/-- State of `Add2Matrix` (sum of two operators). -/
structure Add2Matrix where
  A : LinOp
  B : LinOp

/-- Constructor `Add2Matrix.__init__(A, B)`: `assert A.rows() == B.rows()` then
`assert A.cols() == B.cols()` (source lines 240-241). -/
def Add2Matrix.init (A B : LinOp) : Except PyErr Add2Matrix :=
  if A.rows ≠ B.rows then .error .assertionError
  else if A.cols ≠ B.cols then .error .assertionError
  else .ok ⟨A, B⟩

/-- Method body `return self.A.mult(x) + self.B.mult(x)`. -/
def Add2Matrix.mult (M : Add2Matrix) (x : List ℚ) : Except PyErr (List ℚ) := do
  let a ← M.A.mult x
  let b ← M.B.mult x
  vecAdd a b

/-- Method body `return self.A.transMult(x) + self.B.transMult(x)`. -/
def Add2Matrix.transMult (M : Add2Matrix) (x : List ℚ) : Except PyErr (List ℚ) := do
  let a ← M.A.transMult x
  let b ← M.B.transMult x
  vecAdd a b

/-- Method body `return self.A.cols()`. -/
def Add2Matrix.cols (M : Add2Matrix) : ℕ := M.A.cols

/-- Method body `return self.A.rows()`. -/
def Add2Matrix.rows (M : Add2Matrix) : ℕ := M.A.rows

/-- State of `Mult2Matrix` (product of two operators). -/
structure Mult2Matrix where
  A : LinOp
  B : LinOp

/-- Constructor `Mult2Matrix.__init__(A, B)`: `assert A.cols() == B.rows()`
(source line 267). -/
def Mult2Matrix.init (A B : LinOp) : Except PyErr Mult2Matrix :=
  if A.cols ≠ B.rows then .error .assertionError
  else .ok ⟨A, B⟩

/-- Method body `return self.A.mult(self.B.mult(x))`. -/
def Mult2Matrix.mult (M : Mult2Matrix) (x : List ℚ) : Except PyErr (List ℚ) := do
  let y ← M.B.mult x
  M.A.mult y

/-- Method body `return self.B.transMult(self.A.transMult(x))`. -/
def Mult2Matrix.transMult (M : Mult2Matrix) (x : List ℚ) : Except PyErr (List ℚ) := do
  let y ← M.A.transMult x
  M.B.transMult y

/-- Method body `return self.B.cols()`. -/
def Mult2Matrix.cols (M : Mult2Matrix) : ℕ := M.B.cols

/-- Method body `return self.A.rows()`. -/
def Mult2Matrix.rows (M : Mult2Matrix) : ℕ := M.A.rows

/-- State of `DiagonalMatrix`: the diagonal vector `d`.  The constructor just
stores `d`, with no validation. -/
structure DiagonalMatrix where
  d : List ℚ

/-- Method body `return x * self.d` — no explicit length check; the
elementwise product itself raises on a length mismatch. -/
def DiagonalMatrix.mult (M : DiagonalMatrix) (x : List ℚ) : Except PyErr (List ℚ) :=
  vecMul x M.d

/-- Method body `return x * self.d` (same as `mult`). -/
def DiagonalMatrix.transMult (M : DiagonalMatrix) (x : List ℚ) : Except PyErr (List ℚ) :=
  vecMul x M.d

/-- Method body `return len(self.d)`. -/
def DiagonalMatrix.cols (M : DiagonalMatrix) : ℕ := M.d.length

/-- Method body `return len(self.d)`. -/
def DiagonalMatrix.rows (M : DiagonalMatrix) : ℕ := M.d.length

/-- State of `Cm05Matrix` after `__init__`: size, eigenvalues `ew`,
eigenvector matrix `EV` (columns are eigenvectors) and the precomputed
scaling `mul = np.sqrt(1. / ew)`. -/
structure Cm05Matrix where
  size : ℕ
  ew : List ℚ
  EV : List (List ℚ)
  mul : List ℚ

/-- Constructor `Cm05Matrix.__init__(A)`: raises when
`A.shape[0] != A.shape[1]` (source line 323); otherwise stores
`size = A.shape[0]` and the eigendecomposition `ew, EV = eigh(A)` together
with `mul = np.sqrt(1. / ew)`.  `scipy.linalg.eigh` and the elementwise
`np.sqrt(1. / ·)` are external collaborators, passed in as the parameters
`eigh` and `sqrtInvOf`. -/
def Cm05Matrix.init (eigh : List (List ℚ) → List ℚ × List (List ℚ))
    (sqrtInvOf : List ℚ → List ℚ) (A : List (List ℚ)) : Except PyErr Cm05Matrix :=
  if (matShape A).1 ≠ (matShape A).2 then .error .shapeMismatch
  else
    let ewEV := eigh A
    .ok { size := (matShape A).1, ew := ewEV.1, EV := ewEV.2, mul := sqrtInvOf ewEV.1 }

/-- Method body `return self.size`. -/
def Cm05Matrix.rows (S : Cm05Matrix) : ℕ := S.size

/-- Method body `return self.size`. -/
def Cm05Matrix.cols (S : Cm05Matrix) : ℕ := S.size

/-- Method body of `Cm05Matrix.mult` (source lines 345-348):
`part1 = (np.dot(np.transpose(x), self.EV).T * self.mul)`, then
`self.EV.dot(part1)` (the reshapes only move between 1-d and column shape). -/
def Cm05Matrix.mult (S : Cm05Matrix) (x : List ℚ) : Except PyErr (List ℚ) := do
  let p ← npVecMat x S.EV
  let part1 ← vecMul p S.mul
  npMatVec S.EV part1

/-- Method body `return self.mult(x)` (matrix is symmetric by definition). -/
def Cm05Matrix.transMult (S : Cm05Matrix) (x : List ℚ) : Except PyErr (List ℚ) :=
  S.mult x

/-- State of `GeostatisticConstraintsMatrix` after `__init__`: model size,
the inverse-root operator `CM05` and the spur vector. -/
structure GeostatisticConstraintsMatrix where
  nModel : ℕ
  CM05 : Cm05Matrix
  spur : List ℚ

/-- Constructor `GeostatisticConstraintsMatrix.__init__(CM, ..., withRef)`
for a precomputed covariance matrix `CM` (source lines 411-415):
`nModel = CM.shape[0]`, `CM05 = Cm05Matrix(CM)`,
`spur = CM05 * pg.RVector(nModel, 1.0)` (operator application to the all-ones
vector), and `spur *= 0.0` when `withRef` is set. -/
def GeostatisticConstraintsMatrix.init
    (eigh : List (List ℚ) → List ℚ × List (List ℚ)) (sqrtInvOf : List ℚ → List ℚ)
    (CM : List (List ℚ)) (withRef : Bool) :
    Except PyErr GeostatisticConstraintsMatrix := do
  let nModel := (matShape CM).1
  let cm05 ← Cm05Matrix.init eigh sqrtInvOf CM
  let spur ← cm05.mult (List.replicate nModel 1)
  .ok { nModel := nModel, CM05 := cm05,
        spur := if withRef then spur.map (fun v => v * 0) else spur }

/-- Method body `return self.CM05.mult(x) - self.spur * x`. -/
def GeostatisticConstraintsMatrix.mult (G : GeostatisticConstraintsMatrix)
    (x : List ℚ) : Except PyErr (List ℚ) := do
  let c ← G.CM05.mult x
  let s ← vecMul G.spur x
  vecSub c s

/-- Method body `return self.CM05.transMult(x) - self.spur * x`. -/
def GeostatisticConstraintsMatrix.transMult (G : GeostatisticConstraintsMatrix)
    (x : List ℚ) : Except PyErr (List ℚ) := do
  let c ← G.CM05.transMult x
  let s ← vecMul G.spur x
  vecSub c s

/-- Method body `return self.nModel`. -/
def GeostatisticConstraintsMatrix.cols (G : GeostatisticConstraintsMatrix) : ℕ :=
  G.nModel

/-- Method body `return self.nModel`. -/
def GeostatisticConstraintsMatrix.rows (G : GeostatisticConstraintsMatrix) : ℕ :=
  G.nModel

/-- A `pgcore.RSparseMapMatrix` built from parallel index/value arrays
`SparseMapMatrix(i, j, v)`: `i` holds row indices, `j` column indices. -/
structure SparseMapMatrix where
  rowIdx : List ℕ
  colIdx : List ℕ
  vals : List ℚ

/-- Row count of a sparse map matrix built from index arrays: one more than
the largest row index (0 when there are no entries). -/
def SparseMapMatrix.rows (S : SparseMapMatrix) : ℕ :=
  S.rowIdx.foldr (fun i a => max (i + 1) a) 0

/-- Column count: one more than the largest column index (0 when empty). -/
def SparseMapMatrix.cols (S : SparseMapMatrix) : ℕ :=
  S.colIdx.foldr (fun j a => max (j + 1) a) 0

/-- The `M.ndim == 1` branch of `__BlockMatrix_addMatrix_happy_GC__` (source
lines 197-202): a 1-d `M` becomes
`SparseMapMatrix(list(range(len(M))), [0]*len(M), M)` when `transpose` is
`False`, and `SparseMapMatrix([0]*len(M), list(range(len(M))), M)` when
`transpose` is `True`; the result replaces `M` before insertion. -/
def blockMatrixVecToSparse (M : List ℚ) (transposeFlag : Bool) : SparseMapMatrix :=
  if transposeFlag = false then
    { rowIdx := List.range M.length, colIdx := List.replicate M.length 0, vals := M }
  else
    { rowIdx := List.replicate M.length 0, colIdx := List.range M.length, vals := M }

/-- State of an `RBlockMatrix` as far as the monkey-patched `addMatrix` is
concerned: the retained sub-matrices (`self.__mats__`, which also stand in
for the core registry giving out `matrixID`s) and the placed entries
`(matrixID, row, col, scale)`. -/
structure RBlockMatrix where
  mats : List SparseMapMatrix
  entries : List (ℕ × ℕ × ℕ × ℚ)

/-- The monkey-patched `__BlockMatrix_addMatrix_happy_GC__` restricted to a
1-d `M` (source lines 197-225): convert `M` to a sparse vector operator,
retain it in `self.__mats__`, obtain a fresh `matrixID`, and when both `row`
and `col` are given immediately register `addMatrixEntry(matrixID, row, col,
scale)`.  Returns the updated state and the `matrixID`. -/
def RBlockMatrix.addMatrixVec (self : RBlockMatrix) (M : List ℚ)
    (row col : Option ℕ) (scale : ℚ) (transposeFlag : Bool) : RBlockMatrix × ℕ :=
  let newM := blockMatrixVecToSparse M transposeFlag
  let matrixID := self.mats.length
  let st : RBlockMatrix := { mats := self.mats ++ [newM], entries := self.entries }
  match row, col with
  | some r, some c =>
      ({ st with entries := st.entries ++ [(matrixID, r, c, scale)] }, matrixID)
  | _, _ => (st, matrixID)

/-- The base-operator shape contract of the spec: applying an operator to a
vector whose length differs from `cols()` raises a `ShapeMismatch`.  Terminal
storage-engine matrices satisfy it. -/
def ShapeStrict (A : LinOp) : Prop :=
  ∀ x : List ℚ, x.length ≠ A.cols → A.mult x = .error .shapeMismatch

/-- Example eigendecomposition collaborator used in concrete instantiations:
on any input it returns eigenvalues `[2, 2]` and the identity eigenvector
matrix (the exact decomposition of `covEx` below). -/
def eighEx : List (List ℚ) → List ℚ × List (List ℚ) :=
  fun _ => ([2, 2], [[1, 0], [0, 1]])

/-- Example elementwise `np.sqrt(1. / ·)` collaborator for concrete
instantiations: maps every eigenvalue to `1` (a length-preserving stand-in
for the irrational true value). -/
def sqrtInvEx : List ℚ → List ℚ := fun l => l.map (fun _ => 1)

/-- Example 2-by-2 covariance matrix for concrete instantiations. -/
def covEx : List (List ℚ) := [[2, 0], [0, 2]]

/-- The `Cm05Matrix` state produced by `Cm05Matrix.init eighEx sqrtInvEx covEx`. -/
def cm05Ex : Cm05Matrix :=
  { size := 2, ew := [2, 2], EV := [[1, 0], [0, 1]], mul := [1, 1] }

/-- The `GeostatisticConstraintsMatrix` state produced from `covEx` with the
default `withRef=False` (its spur is `cm05Ex.mult [1, 1] = [1, 1]`). -/
def geoEx : GeostatisticConstraintsMatrix :=
  { nModel := 2, CM05 := cm05Ex, spur := [1, 1] }

/-- The `GeostatisticConstraintsMatrix` state produced from `covEx` with
`withRef=True` (its spur is zeroed). -/
def geoExRef : GeostatisticConstraintsMatrix :=
  { nModel := 2, CM05 := cm05Ex, spur := [0, 0] }

/-! Helper lemmas. -/

/-- Multiplying a vector elementwise by an all-ones vector of its own length
returns the vector unchanged. -/
lemma zipWith_mul_replicate_one (x : List ℚ) :
    List.zipWith (· * ·) x (List.replicate x.length 1) = x := by
  induction x with
  | nil => rfl
  | cons a t ih => simpa [List.replicate_succ] using ih

/-- Binding an `ok` value in the `Except` monad applies the continuation. -/
lemma except_bind_ok {α β : Type} (a : α) (f : α → Except PyErr β) :
    (Except.ok a >>= f) = f a := rfl

/-- Binding an error in the `Except` monad propagates the error. -/
lemma except_bind_error {α β : Type} (e : PyErr) (f : α → Except PyErr β) :
    ((Except.error e : Except PyErr α) >>= f) = Except.error e := rfl

/-! Theorems for the claims. -/

/-- C9: `DiagonalMatrix(d)` is self-adjoint: for every vector `d` and every
`x` of length `len(d)`, `mult(x) = transMult(x) = x * d` elementwise, and
`rows() = cols() = len(d)`. -/
theorem DiagonalMatrix_self_adjoint (d x : List ℚ) (hx : x.length = d.length) :
    (DiagonalMatrix.mk d).mult x = .ok (List.zipWith (· * ·) x d) ∧
    (DiagonalMatrix.mk d).transMult x = (DiagonalMatrix.mk d).mult x ∧
    (DiagonalMatrix.mk d).rows = d.length ∧
    (DiagonalMatrix.mk d).cols = d.length := by
  refine ⟨?_, rfl, rfl, rfl⟩
  simp [DiagonalMatrix.mult, vecMul, hx]

/-- Witness for C9 at `d = [2, 3]`, `x = [4, 5]`. -/
theorem DiagonalMatrix_self_adjoint_witness :
    (DiagonalMatrix.mk [2, 3]).mult [4, 5] =
      .ok (List.zipWith (· * ·) [4, 5] [2, 3]) ∧
    (DiagonalMatrix.mk [2, 3]).transMult [4, 5] =
      (DiagonalMatrix.mk [2, 3]).mult [4, 5] ∧
    (DiagonalMatrix.mk [2, 3]).rows = ([2, 3] : List ℚ).length ∧
    (DiagonalMatrix.mk [2, 3]).cols = ([2, 3] : List ℚ).length :=
  DiagonalMatrix_self_adjoint [2, 3] [4, 5] (by decide)

/-- C6: `MultRightMatrix(A)` built without an explicit right vector defaults
to the all-ones vector of length `A.cols()`, and for every `x` of length
`A.cols()` its `mult(x)` equals `A.mult(x)`. -/
theorem MultRightMatrix_default_identity (A : LinOp) :
    (MultRightMatrix.init A none).r = List.replicate A.cols 1 ∧
    ∀ x : List ℚ, x.length = A.cols →
      (MultRightMatrix.init A none).mult x = A.mult x := by
  refine ⟨rfl, fun x hx => ?_⟩
  have hr : (MultRightMatrix.init A none).r = List.replicate A.cols 1 := rfl
  have hlen : x.length = (MultRightMatrix.init A none).r.length := by
    simp [hr, hx]
  simp only [MultRightMatrix.mult, hlen, ne_eq, not_true_eq_false, if_false,
    vecMul, hr, ← hlen, if_pos rfl, except_bind_ok]
  have : List.zipWith (· * ·) x (List.replicate A.cols 1) = x := by
    rw [← hx, zipWith_mul_replicate_one]
  rw [this]
  rfl

/-- Witness for C6 at `A` the dense 2-by-2 matrix `[[1, 2], [3, 4]]` and
`x = [1, 1]`. -/
theorem MultRightMatrix_default_identity_witness :
    (MultRightMatrix.init (denseLinOp [[1, 2], [3, 4]]) none).mult [1, 1] =
      (denseLinOp [[1, 2], [3, 4]]).mult [1, 1] :=
  (MultRightMatrix_default_identity (denseLinOp [[1, 2], [3, 4]])).2 [1, 1] (by decide)

/-- C10: on any `MultRightMatrix` whose right vector is sized, calling `mult`
with a sized `x` of different length takes the fallback branch that reads the
never-assigned attribute `self.perm`, so the call raises an attribute-lookup
error instead of returning a vector. -/
theorem MultRightMatrix_perm_attribute_error (M : MultRightMatrix) (x : List ℚ)
    (h : x.length ≠ M.r.length) : M.mult x = .error .attributeError := by
  simp [MultRightMatrix.mult, h]

/-- Witness for C10: a 2-column operator with the default right vector applied
to a length-3 input. -/
theorem MultRightMatrix_perm_attribute_error_witness :
    (MultRightMatrix.init (denseLinOp [[1, 2], [3, 4]]) none).mult [1, 2, 3] =
      .error .attributeError :=
  MultRightMatrix_perm_attribute_error
    (MultRightMatrix.init (denseLinOp [[1, 2], [3, 4]]) none) [1, 2, 3] (by decide)

/-- C4: construction-time validation: `MultLeftMatrix(A, left)` fails exactly
when `len(left) != A.rows()`; `MultLeftRightMatrix(A, left, right)` fails
exactly when `len(right) != A.cols()` or `len(left) != A.rows()`;
`Cm05Matrix(A)` fails exactly when `A` is not square. -/
theorem construction_shape_validation :
    (∀ (A : LinOp) (left : List ℚ),
      (∃ e, MultLeftMatrix.init A left = .error e) ↔ left.length ≠ A.rows) ∧
    (∀ (A : LinOp) (left right : List ℚ),
      (∃ e, MultLeftRightMatrix.init A left right = .error e) ↔
        (right.length ≠ A.cols ∨ left.length ≠ A.rows)) ∧
    (∀ (eigh : List (List ℚ) → List ℚ × List (List ℚ))
       (sqrtInvOf : List ℚ → List ℚ) (A : List (List ℚ)),
      (∃ e, Cm05Matrix.init eigh sqrtInvOf A = .error e) ↔
        (matShape A).1 ≠ (matShape A).2) := by
  refine ⟨fun A left => ?_, fun A left right => ?_, fun eigh sq A => ?_⟩
  · unfold MultLeftMatrix.init
    by_cases h : A.rows ≠ left.length <;> simp [h] <;> omega
  · unfold MultLeftRightMatrix.init
    by_cases h1 : A.cols ≠ right.length
    · simp [h1]; omega
    · by_cases h2 : A.rows ≠ left.length <;> simp [h1, h2] <;> omega
  · unfold Cm05Matrix.init
    by_cases h : (matShape A).1 ≠ (matShape A).2 <;> simp [h]

/-- Witness for C4: constructing `MultLeftMatrix` over a dense 2-by-2 matrix
with a length-3 left vector fails. -/
theorem construction_shape_validation_witness :
    ∃ e, MultLeftMatrix.init (denseLinOp [[1, 2], [3, 4]]) [1, 2, 3] = .error e :=
  (construction_shape_validation.1 (denseLinOp [[1, 2], [3, 4]]) [1, 2, 3]).mpr
    (by decide)

/-- C5: for `MultLeftRightMatrix(A, left, right)` with matching vector
lengths, `mult(x)` is `A.mult(x * right) * left` and `transMult(x)` is
`A.transMult(x * left) * right`. -/
theorem MultLeftRightMatrix_mult_spec (A : LinOp) (left right : List ℚ)
    (M : MultLeftRightMatrix) (hl : left.length = A.rows)
    (hr : right.length = A.cols)
    (hM : MultLeftRightMatrix.init A left right = .ok M) :
    (∀ x y, x.length = A.cols →
      A.mult (List.zipWith (· * ·) x right) = .ok y →
      M.mult x = vecMul y left) ∧
    (∀ x y, x.length = A.rows →
      A.transMult (List.zipWith (· * ·) x left) = .ok y →
      M.transMult x = vecMul y right) := by
  have hM' : M = ⟨A, left, right⟩ := by
    unfold MultLeftRightMatrix.init at hM
    rw [if_neg (by omega), if_neg (by omega)] at hM
    injection hM with h
    exact h.symm
  subst hM'
  constructor
  · intro x y hx hy
    unfold MultLeftRightMatrix.mult
    rw [show vecMul x right = .ok (List.zipWith (· * ·) x right) from by
      simp [vecMul, hx, hr]]
    rw [except_bind_ok, hy, except_bind_ok]
  · intro x y hx hy
    unfold MultLeftRightMatrix.transMult
    rw [show vecMul x left = .ok (List.zipWith (· * ·) x left) from by
      simp [vecMul, hx, hl]]
    rw [except_bind_ok, hy, except_bind_ok]

/-- Witness for C5: the dense matrix `[[1, 2], [3, 4]]` with
`left = right = [1, 1]` at `x = [1, 1]`. -/
theorem MultLeftRightMatrix_mult_spec_witness :
    (MultLeftRightMatrix.mk (denseLinOp [[1, 2], [3, 4]]) [1, 1] [1, 1]).mult [1, 1] =
      vecMul [3, 7] [1, 1] :=
  (MultLeftRightMatrix_mult_spec (denseLinOp [[1, 2], [3, 4]]) [1, 1] [1, 1]
    (MultLeftRightMatrix.mk (denseLinOp [[1, 2], [3, 4]]) [1, 1] [1, 1])
    (by decide) (by decide) rfl).1 [1, 1] [3, 7] (by decide)
    (by simp [denseLinOp, npMatVec, matShape, dotQ]; norm_num)

/-- C7: for `Add2Matrix(A, B)` (construction succeeds only when the shapes
agree), `rows()/cols()` come from `A`, `mult(x)` is the elementwise sum
`A.mult(x) + B.mult(x)` and `transMult(x)` is
`A.transMult(x) + B.transMult(x)`. -/
theorem Add2Matrix_sum_spec (A B : LinOp) (M : Add2Matrix)
    (hM : Add2Matrix.init A B = .ok M) :
    (M.rows = A.rows ∧ M.cols = A.cols) ∧
    (∀ x a b, x.length = M.cols → A.mult x = .ok a → B.mult x = .ok b →
      M.mult x = vecAdd a b) ∧
    (∀ x a b, x.length = M.rows → A.transMult x = .ok a → B.transMult x = .ok b →
      M.transMult x = vecAdd a b) := by
  have hM' : M = ⟨A, B⟩ := by
    unfold Add2Matrix.init at hM
    by_cases h1 : A.rows ≠ B.rows
    · rw [if_pos h1] at hM; exact absurd hM (by simp)
    · rw [if_neg h1] at hM
      by_cases h2 : A.cols ≠ B.cols
      · rw [if_pos h2] at hM; exact absurd hM (by simp)
      · rw [if_neg h2] at hM
        injection hM with h
        exact h.symm
  subst hM'
  refine ⟨⟨rfl, rfl⟩, fun x a b _ ha hb => ?_, fun x a b _ ha hb => ?_⟩
  · unfold Add2Matrix.mult
    rw [ha, except_bind_ok, hb, except_bind_ok]
  · unfold Add2Matrix.transMult
    rw [ha, except_bind_ok, hb, except_bind_ok]

/-- Witness for C7: the dense matrices `[[1, 2], [3, 4]]` and
`[[5, 6], [7, 8]]` at `x = [1, 1]`. -/
theorem Add2Matrix_sum_spec_witness :
    (Add2Matrix.mk (denseLinOp [[1, 2], [3, 4]]) (denseLinOp [[5, 6], [7, 8]])).mult
      [1, 1] = vecAdd [3, 7] [11, 15] :=
  (Add2Matrix_sum_spec (denseLinOp [[1, 2], [3, 4]]) (denseLinOp [[5, 6], [7, 8]])
    (Add2Matrix.mk (denseLinOp [[1, 2], [3, 4]]) (denseLinOp [[5, 6], [7, 8]]))
    rfl).2.1 [1, 1] [3, 7] [11, 15] (by decide)
    (by simp [denseLinOp, npMatVec, matShape, dotQ]; norm_num)
    (by simp [denseLinOp, npMatVec, matShape, dotQ]; norm_num)

/-- C8: for `Mult2Matrix(A, B)` (construction succeeds only when
`A.cols() == B.rows()`), `mult(x) = A.mult(B.mult(x))`,
`transMult(x) = B.transMult(A.transMult(x))` (operand order reversed), and
`rows() = A.rows()`, `cols() = B.cols()`. -/
theorem Mult2Matrix_product_spec (A B : LinOp) (M : Mult2Matrix)
    (hM : Mult2Matrix.init A B = .ok M) :
    (M.rows = A.rows ∧ M.cols = B.cols) ∧
    (∀ x y, x.length = B.cols → B.mult x = .ok y → M.mult x = A.mult y) ∧
    (∀ x z, x.length = A.rows → A.transMult x = .ok z →
      M.transMult x = B.transMult z) := by
  have hM' : M = ⟨A, B⟩ := by
    unfold Mult2Matrix.init at hM
    by_cases h1 : A.cols ≠ B.rows
    · rw [if_pos h1] at hM; exact absurd hM (by simp)
    · rw [if_neg h1] at hM
      injection hM with h
      exact h.symm
  subst hM'
  refine ⟨⟨rfl, rfl⟩, fun x y _ hy => ?_, fun x z _ hz => ?_⟩
  · unfold Mult2Matrix.mult
    rw [hy, except_bind_ok]
  · unfold Mult2Matrix.transMult
    rw [hz, except_bind_ok]

/-- Witness for C8: the dense matrices `[[1, 2], [3, 4]]` and
`[[5, 6], [7, 8]]` at `x = [1, 1]`. -/
theorem Mult2Matrix_product_spec_witness :
    (Mult2Matrix.mk (denseLinOp [[1, 2], [3, 4]]) (denseLinOp [[5, 6], [7, 8]])).mult
      [1, 1] = (denseLinOp [[1, 2], [3, 4]]).mult [11, 15] :=
  (Mult2Matrix_product_spec (denseLinOp [[1, 2], [3, 4]]) (denseLinOp [[5, 6], [7, 8]])
    (Mult2Matrix.mk (denseLinOp [[1, 2], [3, 4]]) (denseLinOp [[5, 6], [7, 8]]))
    rfl).2.1 [1, 1] [11, 15] (by decide)
    (by simp [denseLinOp, npMatVec, matShape, dotQ]; norm_num)

/-- Folding the max-plus-one accumulator over `List.range n` yields `max n b`. -/
lemma foldr_maxSucc_range (n : ℕ) (b : ℕ) :
    List.foldr (fun i a => max (i + 1) a) b (List.range n) = max n b := by
  induction n generalizing b with
  | zero => simp
  | succ n ih =>
      rw [List.range_succ, List.foldr_append]
      simp only [List.foldr_cons, List.foldr_nil]
      rw [ih]
      omega

/-- Folding the max-plus-one accumulator over `n` zeros yields `1` for `n > 0`. -/
lemma foldr_maxSucc_replicate_zero (n : ℕ) (b : ℕ) (hn : n ≠ 0) :
    List.foldr (fun i a => max (i + 1) a) b (List.replicate n 0) = max 1 b := by
  induction n generalizing b with
  | zero => exact absurd rfl hn
  | succ n ih =>
      rw [List.replicate_succ, List.foldr_cons]
      by_cases h : n = 0
      · subst h; simp
      · rw [ih b h]; omega

/-- C2 (amended): when the block-matrix `addMatrix` receives a 1-dimensional
`M` (nonempty), it converts it into a sparse COLUMN-vector operator of shape
`len(M) x 1` when `transpose` is `False`, and into a sparse ROW-vector
operator of shape `1 x len(M)` when `transpose` is `True`, carrying `M` as
values, and inserts the converted matrix into the assembly. -/
theorem blockMatrix_addMatrix_vector_shape (M : List ℚ) (h : M ≠ []) :
    ((blockMatrixVecToSparse M false).rows = M.length ∧
     (blockMatrixVecToSparse M false).cols = 1 ∧
     (blockMatrixVecToSparse M false).vals = M) ∧
    ((blockMatrixVecToSparse M true).rows = 1 ∧
     (blockMatrixVecToSparse M true).cols = M.length ∧
     (blockMatrixVecToSparse M true).vals = M) ∧
    (∀ (st : RBlockMatrix) (row col : Option ℕ) (scale : ℚ) (tr : Bool),
      (st.addMatrixVec M row col scale tr).1.mats =
        st.mats ++ [blockMatrixVecToSparse M tr]) := by
  have hlen : M.length ≠ 0 := fun hc => h (List.eq_nil_of_length_eq_zero hc)
  refine ⟨⟨?_, ?_, rfl⟩, ⟨?_, ?_, rfl⟩, ?_⟩
  · simp [blockMatrixVecToSparse, SparseMapMatrix.rows, foldr_maxSucc_range]
  · simp [blockMatrixVecToSparse, SparseMapMatrix.cols,
      foldr_maxSucc_replicate_zero M.length 0 hlen]
  · simp [blockMatrixVecToSparse, SparseMapMatrix.rows,
      foldr_maxSucc_replicate_zero M.length 0 hlen]
  · simp [blockMatrixVecToSparse, SparseMapMatrix.cols, foldr_maxSucc_range]
  · intro st row col scale tr
    unfold RBlockMatrix.addMatrixVec
    cases row <;> cases col <;> rfl

/-- Witness for C2 (amended) at `M = [5, 7]`. -/
theorem blockMatrix_addMatrix_vector_shape_witness :
    ((blockMatrixVecToSparse [5, 7] false).rows = ([5, 7] : List ℚ).length ∧
     (blockMatrixVecToSparse [5, 7] false).cols = 1 ∧
     (blockMatrixVecToSparse [5, 7] false).vals = [5, 7]) ∧
    ((blockMatrixVecToSparse [5, 7] true).rows = 1 ∧
     (blockMatrixVecToSparse [5, 7] true).cols = ([5, 7] : List ℚ).length ∧
     (blockMatrixVecToSparse [5, 7] true).vals = [5, 7]) ∧
    (∀ (st : RBlockMatrix) (row col : Option ℕ) (scale : ℚ) (tr : Bool),
      (st.addMatrixVec [5, 7] row col scale tr).1.mats =
        st.mats ++ [blockMatrixVecToSparse [5, 7] tr]) :=
  blockMatrix_addMatrix_vector_shape [5, 7] (by decide)

/-- Counterexample to C2 as stated: for the 1-d vector `M = [5, 7]` with
`transpose=False` the converted sparse operator has shape `2 x 1` (a column
vector), not the claimed `1 x len(M) = 1 x 2` row-vector shape. -/
theorem blockMatrix_addMatrix_vector_shape_cex :
    (blockMatrixVecToSparse [5, 7] false).rows = 2 ∧
    (blockMatrixVecToSparse [5, 7] false).cols = 1 ∧
    ¬((blockMatrixVecToSparse [5, 7] false).rows = 1 ∧
      (blockMatrixVecToSparse [5, 7] false).cols = 2) := by
  decide

/-- Shape of a rectangular square matrix. -/
lemma matShape_of_isRect (M : List (List ℚ)) (n : ℕ) (h : IsRect M n n) :
    matShape M = (n, n) := by
  obtain ⟨h1, h2⟩ := h
  cases M with
  | nil =>
      simp only [List.length_nil] at h1
      simp [matShape, ← h1]
  | cons r t =>
      have hr : r.length = n := h2 r (List.mem_cons_self r t)
      simp [matShape, h1, hr]

/-- On a well-formed state (square `n`-by-`n` eigenvector matrix and scaling
vector of length `n`), `Cm05Matrix.mult` succeeds on inputs of length `n`
and returns a vector of length `n`. -/
lemma cm05_mult_ok (S : Cm05Matrix) (n : ℕ) (hEV : IsRect S.EV n n)
    (hmul : S.mul.length = n) (x : List ℚ) (hx : x.length = n) :
    ∃ y, S.mult x = .ok y ∧ y.length = n := by
  have hsh : matShape S.EV = (n, n) := matShape_of_isRect _ _ hEV
  unfold Cm05Matrix.mult
  rw [show npVecMat x S.EV = .ok ((List.range n).map fun j => dotQ x (colOf S.EV j))
    from by simp [npVecMat, hx, hEV.1, hsh]]
  rw [except_bind_ok]
  have hplen : ((List.range n).map fun j => dotQ x (colOf S.EV j)).length = n := by
    simp
  rw [show vecMul ((List.range n).map fun j => dotQ x (colOf S.EV j)) S.mul =
      .ok (List.zipWith (· * ·) ((List.range n).map fun j => dotQ x (colOf S.EV j)) S.mul)
    from by simp [vecMul, hplen, hmul]]
  rw [except_bind_ok]
  have hzlen : (List.zipWith (· * ·)
      ((List.range n).map fun j => dotQ x (colOf S.EV j)) S.mul).length = n := by
    simp [hplen, hmul]
  refine ⟨S.EV.map (fun row => dotQ row (List.zipWith (· * ·)
      ((List.range n).map fun j => dotQ x (colOf S.EV j)) S.mul)), ?_, ?_⟩
  · simp [npMatVec, hsh, hzlen]
  · simp [hEV.1]

/-- Scaling a vector elementwise by the scalar zero yields the zero vector. -/
lemma map_mul_zero_eq_replicate (l : List ℚ) :
    l.map (fun v => v * 0) = List.replicate l.length 0 := by
  induction l with
  | nil => rfl
  | cons a t ih => simp [List.replicate_succ, ih]

/-- Subtracting the zero vector elementwise is the identity. -/
lemma zipWith_sub_replicate_zero (l : List ℚ) :
    List.zipWith (· - ·) l (List.replicate l.length 0) = l := by
  induction l with
  | nil => rfl
  | cons a t ih => simp [List.replicate_succ, ih]

/-- Subtracting `l - (l - l)` elementwise gives back `l`. -/
lemma zipWith_sub_sub_self (l : List ℚ) :
    List.zipWith (· - ·) l (List.zipWith (· - ·) l l) = l := by
  induction l with
  | nil => rfl
  | cons a t ih => simp [zipWith_sub_replicate_zero]

/-- C1: for a `GeostatisticConstraintsMatrix` built from an `n`-by-`n`
covariance matrix (with the eigendecomposition collaborator returning an
`n`-by-`n` eigenvector matrix and `n` scaling values): `spur` equals `CM05`
applied to the all-ones vector of length `n`; `mult(x)` equals
`CM05.mult(x) - spur * x` elementwise for every `x` of length `n`;
`withRef=True` makes `spur` identically zero; and with the default
`withRef=False`, `mult(ones(n))` differs from `CM05.mult(ones(n))` by
exactly `spur`. -/
theorem GeostatisticConstraintsMatrix_spur_spec
    (eigh : List (List ℚ) → List ℚ × List (List ℚ)) (sqrtInvOf : List ℚ → List ℚ)
    (CM : List (List ℚ)) (n : ℕ)
    (hCM : IsRect CM n n)
    (hEV : IsRect (eigh CM).2 n n)
    (hmul : (sqrtInvOf (eigh CM).1).length = n)
    (G Gref : GeostatisticConstraintsMatrix)
    (hG : GeostatisticConstraintsMatrix.init eigh sqrtInvOf CM false = .ok G)
    (hGref : GeostatisticConstraintsMatrix.init eigh sqrtInvOf CM true = .ok Gref) :
    (G.CM05.mult (List.replicate n 1) = .ok G.spur) ∧
    (∀ x c, x.length = n → G.CM05.mult x = .ok c →
      G.mult x = .ok (List.zipWith (· - ·) c (List.zipWith (· * ·) G.spur x))) ∧
    (Gref.spur = List.replicate n 0) ∧
    (∀ s m, G.CM05.mult (List.replicate n 1) = .ok s →
      G.mult (List.replicate n 1) = .ok m →
      List.zipWith (· - ·) s m = G.spur) := by
  have hshCM : matShape CM = (n, n) := matShape_of_isRect _ _ hCM
  have hc05 : Cm05Matrix.init eigh sqrtInvOf CM =
      .ok { size := n, ew := (eigh CM).1, EV := (eigh CM).2,
            mul := sqrtInvOf (eigh CM).1 } := by
    unfold Cm05Matrix.init
    rw [if_neg (by simp [hshCM])]
    simp [hshCM]
  obtain ⟨s0, hs0, hs0len⟩ :=
    cm05_mult_ok { size := n, ew := (eigh CM).1, EV := (eigh CM).2,
                   mul := sqrtInvOf (eigh CM).1 } n hEV hmul
      (List.replicate n 1) (by simp)
  have hGinit : ∀ wr : Bool, GeostatisticConstraintsMatrix.init eigh sqrtInvOf CM wr =
      .ok { nModel := n,
            CM05 := { size := n, ew := (eigh CM).1, EV := (eigh CM).2,
                      mul := sqrtInvOf (eigh CM).1 },
            spur := if wr then s0.map (fun v => v * 0) else s0 } := by
    intro wr
    unfold GeostatisticConstraintsMatrix.init
    simp only [hshCM, hc05]
    rw [except_bind_ok, hs0, except_bind_ok]
  have hGeq : G =
      { nModel := n,
        CM05 := { size := n, ew := (eigh CM).1, EV := (eigh CM).2,
                  mul := sqrtInvOf (eigh CM).1 },
        spur := s0 } := by
    rw [hGinit false] at hG
    injection hG with h
    exact h.symm
  have hGrefeq : Gref =
      { nModel := n,
        CM05 := { size := n, ew := (eigh CM).1, EV := (eigh CM).2,
                  mul := sqrtInvOf (eigh CM).1 },
        spur := s0.map (fun v => v * 0) } := by
    rw [hGinit true] at hGref
    injection hGref with h
    exact h.symm
  subst hGeq
  subst hGrefeq
  have hmultG : ∀ x c, x.length = n →
      Cm05Matrix.mult { size := n, ew := (eigh CM).1, EV := (eigh CM).2,
                        mul := sqrtInvOf (eigh CM).1 } x = .ok c →
      GeostatisticConstraintsMatrix.mult
        { nModel := n,
          CM05 := { size := n, ew := (eigh CM).1, EV := (eigh CM).2,
                    mul := sqrtInvOf (eigh CM).1 },
          spur := s0 } x =
        .ok (List.zipWith (· - ·) c (List.zipWith (· * ·) s0 x)) := by
    intro x c hx hc
    obtain ⟨y, hy, hylen⟩ :=
      cm05_mult_ok { size := n, ew := (eigh CM).1, EV := (eigh CM).2,
                     mul := sqrtInvOf (eigh CM).1 } n hEV hmul x hx
    have hclen : c.length = n := by
      rw [hy] at hc
      injection hc with h
      rw [← h]; exact hylen
    unfold GeostatisticConstraintsMatrix.mult
    rw [hc, except_bind_ok]
    rw [show vecMul s0 x = .ok (List.zipWith (· * ·) s0 x) from by
      simp [vecMul, hs0len, hx]]
    rw [except_bind_ok]
    simp [vecSub, hclen, List.length_zipWith, hs0len, hx]
  refine ⟨hs0, fun x c hx hc => hmultG x c hx hc, ?_, fun s m hs hm => ?_⟩
  · simp [map_mul_zero_eq_replicate, hs0len]
  · have hseq : s = s0 := by
      rw [hs0] at hs
      injection hs with h
      exact h.symm
    have hones : List.zipWith (· * ·) s0 (List.replicate n 1) = s0 := by
      rw [← hs0len, zipWith_mul_replicate_one]
    have hm' := hmultG (List.replicate n 1) s0 (by simp) hs0
    rw [hones] at hm'
    rw [hm'] at hm
    injection hm with h
    rw [hseq, ← h, zipWith_sub_sub_self]

/-- Witness for C1: the concrete covariance matrix `covEx` with the example
eigendecomposition collaborators, instantiated at `n = 2`, `x = [1, 1]`. -/
theorem GeostatisticConstraintsMatrix_spur_spec_witness :
    geoEx.CM05.mult (List.replicate 2 1) = .ok geoEx.spur ∧
    geoEx.mult [1, 1] =
      .ok (List.zipWith (· - ·) [1, 1] (List.zipWith (· * ·) geoEx.spur [1, 1])) ∧
    geoExRef.spur = List.replicate 2 0 ∧
    List.zipWith (· - ·) [1, 1] [0, 0] = geoEx.spur := by
  have h1 : GeostatisticConstraintsMatrix.init eighEx sqrtInvEx covEx false =
      .ok geoEx := by
    norm_num [GeostatisticConstraintsMatrix.init, Cm05Matrix.init, Cm05Matrix.mult,
      npVecMat, npMatVec, vecMul, matShape, colOf, dotQ, eighEx, sqrtInvEx, covEx,
      geoEx, cm05Ex, List.range_succ, List.replicate_succ, Bind.bind, Except.bind]
  have h2 : GeostatisticConstraintsMatrix.init eighEx sqrtInvEx covEx true =
      .ok geoExRef := by
    norm_num [GeostatisticConstraintsMatrix.init, Cm05Matrix.init, Cm05Matrix.mult,
      npVecMat, npMatVec, vecMul, matShape, colOf, dotQ, eighEx, sqrtInvEx, covEx,
      geoExRef, cm05Ex, List.range_succ, List.replicate_succ, Bind.bind, Except.bind]
  have hc : geoEx.CM05.mult [1, 1] = .ok [1, 1] := by
    norm_num [Cm05Matrix.mult, npVecMat, npMatVec, vecMul, matShape, colOf, dotQ,
      geoEx, cm05Ex, List.range_succ, List.replicate_succ, Bind.bind, Except.bind]
  have hs : geoEx.CM05.mult (List.replicate 2 1) = .ok [1, 1] := by
    norm_num [Cm05Matrix.mult, npVecMat, npMatVec, vecMul, matShape, colOf, dotQ,
      geoEx, cm05Ex, List.range_succ, List.replicate_succ, Bind.bind, Except.bind]
  have hm : geoEx.mult (List.replicate 2 1) = .ok [0, 0] := by
    norm_num [GeostatisticConstraintsMatrix.mult, Cm05Matrix.mult, npVecMat,
      npMatVec, vecMul, vecSub, matShape, colOf, dotQ, geoEx, cm05Ex,
      List.range_succ, List.replicate_succ, Bind.bind, Except.bind]
  have T := GeostatisticConstraintsMatrix_spur_spec eighEx sqrtInvEx covEx 2
    (by decide) (by decide) (by decide) geoEx geoExRef h1 h2
  exact ⟨T.1, T.2.1 [1, 1] [1, 1] (by decide) hc, T.2.2.1,
    T.2.2.2 [1, 1] [0, 0] hs hm⟩

/-- Terminal dense operators satisfy the shape contract. -/
lemma denseLinOp_shapeStrict (M : List (List ℚ)) : ShapeStrict (denseLinOp M) := by
  intro x hx
  have : ¬((matShape M).2 = x.length) := fun h => hx (h ▸ rfl)
  simp [denseLinOp, npMatVec, this]

/-- On a `Cm05Matrix` state, `mult` raises a shape error whenever the input
length differs from the eigenvector matrix's row count. -/
lemma cm05_mult_badlen (S : Cm05Matrix) (x : List ℚ)
    (h : x.length ≠ S.EV.length) : S.mult x = .error .shapeMismatch := by
  unfold Cm05Matrix.mult
  rw [show npVecMat x S.EV = .error .shapeMismatch from by simp [npVecMat, h]]
  rfl

/-- C3 (amended): calling `mult(x)` with `len(x) != cols()` fails rather than
returning a result, for every operator in the family (given constituents that
satisfy the shape contract, and eigendecomposition data of matching size);
the failure is a `ShapeMismatch` for all operators — in particular for
`DiagonalMatrix`, where the elementwise multiply itself raises it — EXCEPT
`MultRightMatrix`, whose fallback branch reads the never-assigned attribute
`self.perm` and raises an attribute-lookup error instead. -/
theorem mult_shape_violation_family :
    (∀ (A : LinOp) (left : List ℚ) (M : MultLeftMatrix), ShapeStrict A →
      MultLeftMatrix.init A left = .ok M →
      ∀ x : List ℚ, x.length ≠ M.cols → M.mult x = .error .shapeMismatch) ∧
    (∀ (A : LinOp) (x : List ℚ),
      x.length ≠ (MultRightMatrix.init A none).cols →
      (MultRightMatrix.init A none).mult x = .error .attributeError ∧
      PyErr.attributeError ≠ PyErr.shapeMismatch) ∧
    (∀ (A : LinOp) (left right : List ℚ) (M : MultLeftRightMatrix),
      MultLeftRightMatrix.init A left right = .ok M →
      ∀ x : List ℚ, x.length ≠ M.cols → M.mult x = .error .shapeMismatch) ∧
    (∀ (A B : LinOp) (M : Add2Matrix), ShapeStrict A →
      Add2Matrix.init A B = .ok M →
      ∀ x : List ℚ, x.length ≠ M.cols → M.mult x = .error .shapeMismatch) ∧
    (∀ (A B : LinOp) (M : Mult2Matrix), ShapeStrict B →
      Mult2Matrix.init A B = .ok M →
      ∀ x : List ℚ, x.length ≠ M.cols → M.mult x = .error .shapeMismatch) ∧
    (∀ (d x : List ℚ), x.length ≠ (DiagonalMatrix.mk d).cols →
      (DiagonalMatrix.mk d).mult x = .error .shapeMismatch) ∧
    (∀ S : Cm05Matrix, S.EV.length = S.cols →
      ∀ x : List ℚ, x.length ≠ S.cols → S.mult x = .error .shapeMismatch) ∧
    (∀ G : GeostatisticConstraintsMatrix, G.CM05.EV.length = G.cols →
      ∀ x : List ℚ, x.length ≠ G.cols → G.mult x = .error .shapeMismatch) := by
  refine ⟨?_, ?_, ?_, ?_, ?_, ?_, ?_, ?_⟩
  · intro A left M hA hM x hx
    have hM' : M = ⟨A, left⟩ := by
      unfold MultLeftMatrix.init at hM
      by_cases h : A.rows ≠ left.length
      · rw [if_pos h] at hM; exact absurd hM (by simp)
      · rw [if_neg h] at hM; injection hM with h'; exact h'.symm
    subst hM'
    unfold MultLeftMatrix.mult
    rw [hA x hx, except_bind_error]
  · intro A x hx
    refine ⟨?_, by simp⟩
    have hr : (MultRightMatrix.init A none).r.length = A.cols := by
      simp [MultRightMatrix.init]
    have : x.length ≠ (MultRightMatrix.init A none).r.length := by
      rw [hr]; exact hx
    simp [MultRightMatrix.mult, this]
  · intro A left right M hM x hx
    have hcols : A.cols = right.length := by
      unfold MultLeftRightMatrix.init at hM
      by_cases h1 : A.cols ≠ right.length
      · rw [if_pos h1] at hM; exact absurd hM (by simp)
      · omega
    have hM' : M = ⟨A, left, right⟩ := by
      unfold MultLeftRightMatrix.init at hM
      rw [if_neg (by omega)] at hM
      by_cases h2 : A.rows ≠ left.length
      · rw [if_pos h2] at hM; exact absurd hM (by simp)
      · rw [if_neg h2] at hM; injection hM with h'; exact h'.symm
    subst hM'
    unfold MultLeftRightMatrix.mult
    have hxr : x.length ≠ right.length := by
      intro h
      exact hx (by simpa [MultLeftRightMatrix.cols, hcols] using h)
    rw [show vecMul x right = .error .shapeMismatch from by simp [vecMul, hxr]]
    rfl
  · intro A B M hA hM x hx
    have hM' : M = ⟨A, B⟩ := by
      unfold Add2Matrix.init at hM
      by_cases h1 : A.rows ≠ B.rows
      · rw [if_pos h1] at hM; exact absurd hM (by simp)
      · rw [if_neg h1] at hM
        by_cases h2 : A.cols ≠ B.cols
        · rw [if_pos h2] at hM; exact absurd hM (by simp)
        · rw [if_neg h2] at hM; injection hM with h'; exact h'.symm
    subst hM'
    unfold Add2Matrix.mult
    rw [hA x hx, except_bind_error]
  · intro A B M hB hM x hx
    have hM' : M = ⟨A, B⟩ := by
      unfold Mult2Matrix.init at hM
      by_cases h1 : A.cols ≠ B.rows
      · rw [if_pos h1] at hM; exact absurd hM (by simp)
      · rw [if_neg h1] at hM; injection hM with h'; exact h'.symm
    subst hM'
    unfold Mult2Matrix.mult
    rw [hB x hx, except_bind_error]
  · intro d x hx
    have hxd : x.length ≠ d.length := hx
    simp [DiagonalMatrix.mult, vecMul, hxd]
  · intro S hEVlen x hx
    exact cm05_mult_badlen S x (by rw [hEVlen]; exact hx)
  · intro G hEVlen x hx
    unfold GeostatisticConstraintsMatrix.mult
    rw [cm05_mult_badlen G.CM05 x (by rw [hEVlen]; exact hx), except_bind_error]

/-- Witness for C3 (amended): a diagonal operator with a 2-entry diagonal and
the default-right `MultRightMatrix` over a dense 2-by-2 matrix, both applied
to a length-3 input. -/
theorem mult_shape_violation_family_witness :
    (DiagonalMatrix.mk [2, 3]).mult [1, 2, 3] = .error .shapeMismatch ∧
    ((MultRightMatrix.init (denseLinOp [[1, 2], [3, 4]]) none).mult [1, 2, 3] =
        .error .attributeError ∧
      PyErr.attributeError ≠ PyErr.shapeMismatch) ∧
    (MultLeftMatrix.mk (denseLinOp [[1, 2], [3, 4]]) [1, 1]).mult [1, 2, 3] =
      .error .shapeMismatch := by
  refine ⟨mult_shape_violation_family.2.2.2.2.2.1 [2, 3] [1, 2, 3] (by decide),
    mult_shape_violation_family.2.1 (denseLinOp [[1, 2], [3, 4]]) [1, 2, 3]
      (by decide),
    mult_shape_violation_family.1 (denseLinOp [[1, 2], [3, 4]]) [1, 1]
      (MultLeftMatrix.mk (denseLinOp [[1, 2], [3, 4]]) [1, 1])
      (denseLinOp_shapeStrict [[1, 2], [3, 4]]) rfl [1, 2, 3] (by decide)⟩

/-- Counterexample to C3 as stated: for a `MultRightMatrix` with the default
right vector over a dense 2-by-2 matrix, `mult` on a length-3 input fails
with an attribute-lookup error (the `self.perm` fallback), not with a
`ShapeMismatch`. -/
theorem mult_shape_violation_family_cex :
    ([1, 2, 3] : List ℚ).length ≠
      (MultRightMatrix.init (denseLinOp [[1, 2], [3, 4]]) none).cols ∧
    (MultRightMatrix.init (denseLinOp [[1, 2], [3, 4]]) none).mult [1, 2, 3] =
      .error .attributeError ∧
    (MultRightMatrix.init (denseLinOp [[1, 2], [3, 4]]) none).mult [1, 2, 3] ≠
      .error .shapeMismatch := by
  decide

end GimliSpec
